import Mathlib

/-!
Verification development for the elastica plane-interaction module
(`elastica/interaction.py`): the slip-velocity regularizer
`linear_interpolation_slip`, the normal-contact resolver
`InteractionPlane.apply_normal_force`, and the kinetic-friction routine
`AnistropicFrictionalPlane.apply_kinetic_friction`.

Scalars are modelled as rationals.  The NumPy code operates elementwise on
arrays whose trailing axis indexes rod elements; every array statement is
embedded as its per-element semantics (a masked assignment such as
`a[..., np.where(cond)] = v` becomes an `if` on the mask condition), and a
rod element carries the data of its two bounding nodes.  Language-level
failures of the Python source (a method call with a wrong number of
positional arguments, subtracting a tuple from a float) are modelled with
an explicit `Except` error, and IEEE NaN (from `np.sqrt` of a negative
number) with `Option`.
-/

set_option autoImplicit false

/-! ### Rational 3-vectors -/

structure Vec3 where
  x : ℚ
  y : ℚ
  z : ℚ
  deriving DecidableEq

namespace Vec3

def add (a b : Vec3) : Vec3 := ⟨a.x + b.x, a.y + b.y, a.z + b.z⟩

def neg (a : Vec3) : Vec3 := ⟨-a.x, -a.y, -a.z⟩

def sub (a b : Vec3) : Vec3 := ⟨a.x - b.x, a.y - b.y, a.z - b.z⟩

def smul (c : ℚ) (a : Vec3) : Vec3 := ⟨c * a.x, c * a.y, c * a.z⟩

def dot (a b : Vec3) : ℚ := a.x * b.x + a.y * b.y + a.z * b.z

def hadamard (a b : Vec3) : Vec3 := ⟨a.x * b.x, a.y * b.y, a.z * b.z⟩

def zero : Vec3 := ⟨0, 0, 0⟩

end Vec3

/-! ### The slip-velocity regularizer `linear_interpolation_slip` -/

/-- Elementwise semantics of `linear_interpolation_slip`: the output array
`slip_function` starts as `np.ones`, and the positions of the mask
`slip_points` (where `|velocity_slip| > velocity_threshold` holds strictly)
are overwritten with `|1 - min(1, |velocity_slip| / velocity_threshold - 1)|`;
a position with `|velocity_slip| <= velocity_threshold` keeps the initial
value `1`. -/
def slip_factor (velocity_threshold v : ℚ) : ℚ :=
  if velocity_threshold < |v| then |1 - min 1 (|v| / velocity_threshold - 1)| else 1

/-- The regularizer applied to a sequence of slip velocities, one factor per
element. -/
def linear_interpolation_slip (velocity_slip : List ℚ) (velocity_threshold : ℚ) : List ℚ :=
  velocity_slip.map (slip_factor velocity_threshold)

/-! ### `InteractionPlane` -/

structure InteractionPlane where
  k : ℚ
  nu : ℚ
  origin_plane : Vec3
  normal_plane : Vec3
  surface_tol : ℚ

/-- Constructor `InteractionPlane.__init__`: it receives `k`, `nu`,
`origin_plane` and `normal_plane`, and assigns the literal `1e-4` to
`surface_tol`, which is not a parameter. -/
def InteractionPlane.init (k nu : ℚ) (origin_plane normal_plane : Vec3) : InteractionPlane :=
  ⟨k, nu, origin_plane, normal_plane, 1 / 10000⟩

/-- One rod element together with the state of its two bounding nodes, as
read by `apply_normal_force` and `apply_kinetic_friction` (node `0` is the
element's entry in the `[..., :-1]` slices, node `1` its entry in the
`[..., 1:]` slices). -/
structure RodElement where
  position0 : Vec3
  position1 : Vec3
  velocity0 : Vec3
  velocity1 : Vec3
  internal_force0 : Vec3
  internal_force1 : Vec3
  external_force0 : Vec3
  external_force1 : Vec3
  r : ℚ
  tangent : Vec3

/-- Element midpoint `element_x = 0.5 * (position[:-1] + position[1:])`. -/
def element_x (e : RodElement) : Vec3 :=
  Vec3.smul (1 / 2) (Vec3.add e.position0 e.position1)

/-- Signed distance `normal_plane @ (element_x - origin_plane)`. -/
def distance_from_plane (p : InteractionPlane) (e : RodElement) : ℚ :=
  Vec3.dot p.normal_plane (Vec3.sub (element_x e) p.origin_plane)

/-- Entry of `nodal_total_forces = internal_forces + external_forces` at the
element's first bounding node. -/
def nodal_total_force0 (e : RodElement) : Vec3 :=
  Vec3.add e.internal_force0 e.external_force0

/-- Entry of `nodal_total_forces` at the element's second bounding node. -/
def nodal_total_force1 (e : RodElement) : Vec3 :=
  Vec3.add e.internal_force1 e.external_force1

/-- Element-averaged net nodal force
`total_forces = 0.5 * (nodal_total_forces[:-1] + nodal_total_forces[1:])`. -/
def total_forces (e : RodElement) : Vec3 :=
  Vec3.smul (1 / 2) (Vec3.add (nodal_total_force0 e) (nodal_total_force1 e))

/-- Normal component `forces_normal_direction = normal_plane @ total_forces`. -/
def forces_normal_direction (p : InteractionPlane) (e : RodElement) : ℚ :=
  Vec3.dot p.normal_plane (total_forces e)

/-- Column of `forces_normal = np.outer(normal_plane, forces_normal_direction)`
after the masked zeroing `forces_normal[..., where(forces_normal_direction > 0)] = 0`. -/
def forces_normal (p : InteractionPlane) (e : RodElement) : Vec3 :=
  if 0 < forces_normal_direction p e then Vec3.zero
  else Vec3.smul (forces_normal_direction p e) p.normal_plane

/-- `plane_penetration = min(distance_from_plane - r, 0)`. -/
def plane_penetration (p : InteractionPlane) (e : RodElement) : ℚ :=
  min (distance_from_plane p e - e.r) 0

/-- Column of `elastic_force = -k * np.outer(normal_plane, plane_penetration)`. -/
def elastic_force (p : InteractionPlane) (e : RodElement) : Vec3 :=
  Vec3.smul (-(p.k * plane_penetration p e)) p.normal_plane

/-- Element-averaged velocity `element_v = 0.5 * (velocity[:-1] + velocity[1:])`. -/
def element_v (e : RodElement) : Vec3 :=
  Vec3.smul (1 / 2) (Vec3.add e.velocity0 e.velocity1)

/-- `normal_v = normal_plane @ element_v`. -/
def normal_v (p : InteractionPlane) (e : RodElement) : ℚ :=
  Vec3.dot p.normal_plane (element_v e)

/-- Column of `damping_force = -nu * np.outer(normal_plane, normal_v)`. -/
def damping_force (p : InteractionPlane) (e : RodElement) : Vec3 :=
  Vec3.smul (-(p.nu * normal_v p e)) p.normal_plane

/-- `normal_force_plane = -forces_normal`, then zeroed at the positions of
`no_contact_pts = np.where(distance_from_plane > surface_tol)`. -/
def normal_force_plane (p : InteractionPlane) (e : RodElement) : Vec3 :=
  if p.surface_tol < distance_from_plane p e then Vec3.zero
  else Vec3.neg (forces_normal p e)

/-- `total_force_plane = normal_force_plane + elastic_force + damping_force`. -/
def total_force_plane (p : InteractionPlane) (e : RodElement) : Vec3 :=
  Vec3.add (Vec3.add (normal_force_plane p e) (elastic_force p e)) (damping_force p e)

/-- The halved per-element force the statement
`rod.external_forces[..., :-1] += 0.5 * total_force_plane` adds to the
element's first bounding node. -/
def external_force_delta_node0 (p : InteractionPlane) (e : RodElement) : Vec3 :=
  Vec3.smul (1 / 2) (total_force_plane p e)

/-- The halved per-element force the statement
`rod.external_forces[..., 1:] += 0.5 * total_force_plane` adds to the
element's second bounding node. -/
def external_force_delta_node1 (p : InteractionPlane) (e : RodElement) : Vec3 :=
  Vec3.smul (1 / 2) (total_force_plane p e)

/-- The full effect of `InteractionPlane.apply_normal_force` on one element:
the returned per-element vector (`normal_force_plane`) paired with the
element whose external-force accumulator received the two halved additions
of `total_force_plane`. -/
def apply_normal_force (p : InteractionPlane) (e : RodElement) : Vec3 × RodElement :=
  (normal_force_plane p e,
   { e with
     external_force0 := Vec3.add e.external_force0 (external_force_delta_node0 p e),
     external_force1 := Vec3.add e.external_force1 (external_force_delta_node1 p e) })

/-! ### `AnistropicFrictionalPlane` -/

structure AnistropicFrictionalPlane extends InteractionPlane where
  slip_velocity_tol : ℚ
  static_mu_forward : ℚ
  static_mu_backward : ℚ
  static_mu_sideways : ℚ
  kinetic_mu_forward : ℚ
  kinetic_mu_backward : ℚ
  kinetic_mu_sideways : ℚ

/-- Constructor `AnistropicFrictionalPlane.__init__`: delegates `k`, `nu`,
`origin_plane`, `normal_plane` to `InteractionPlane.__init__` (which fixes
`surface_tol` to `1e-4`) and unpacks the two coefficient triples in the
order forward, backward, sideways. -/
def AnistropicFrictionalPlane.init (k nu : ℚ) (origin_plane normal_plane : Vec3)
    (slip_velocity_tol : ℚ) (static_mu_array kinetic_mu_array : ℚ × ℚ × ℚ) :
    AnistropicFrictionalPlane :=
  { toInteractionPlane := InteractionPlane.init k nu origin_plane normal_plane,
    slip_velocity_tol := slip_velocity_tol,
    static_mu_forward := static_mu_array.1,
    static_mu_backward := static_mu_array.2.1,
    static_mu_sideways := static_mu_array.2.2,
    kinetic_mu_forward := kinetic_mu_array.1,
    kinetic_mu_backward := kinetic_mu_array.2.1,
    kinetic_mu_sideways := kinetic_mu_array.2.2 }

/-! ### Python-level failure model for `apply_kinetic_friction`

The body of `apply_kinetic_friction` contains two language-level errors:

* its first statement is `normal_force_plane = self.apply_normal_force(self, rod)`,
  calling the bound method `self.apply_normal_force` (which accepts exactly
  one positional argument, `rod`) with the two positional arguments
  `(self, rod)` — Python raises `TypeError` here on every call;
* further down, `slip_function = (axial_slip_velocity, self.slip_velocity_tol)`
  binds a 2-tuple (`linear_interpolation_slip` is never invoked), so the
  subexpression `1.0 - slip_function` of the friction force is a
  float-minus-tuple and raises `TypeError` whatever the tuple holds.
-/

inductive PyError where
  | typeError
  deriving DecidableEq

/-- Number of positional arguments, besides `self`, that the method
`InteractionPlane.apply_normal_force(self, rod)` accepts. -/
def apply_normal_force_arity : Nat := 1

/-- A Python call of a bound method: it evaluates to the given result when
the number of positional arguments supplied matches the method's arity, and
raises `TypeError` otherwise. -/
def call_bound_method {α : Type} (arity nargs : Nat) (result : α) : Except PyError α :=
  if nargs = arity then Except.ok result else Except.error PyError.typeError

/-- The quantity `np.sqrt(np.einsum(element_v, axial_direction))` bound to
`axial_slip_velocity`: the square root of the signed per-element dot
product; a negative radicand gives IEEE NaN, modelled `none`. -/
noncomputable def axial_slip_velocity_code (v t : Vec3) : Option ℝ :=
  if Vec3.dot v t < 0 then none else some (Real.sqrt ((Vec3.dot v t : ℚ) : ℝ))

/-- The quantity `np.sign(axial_slip_velocity)` computed by the source:
`np.sign` of NaN is NaN (`none`); on a non-negative radicand `d`,
`sqrt d` is zero exactly when `d = 0` and strictly positive otherwise, so
the sign is `0` or `1` and never `-1`. -/
def axial_slip_velocity_sign_code (v t : Vec3) : Option ℚ :=
  if Vec3.dot v t < 0 then none
  else if Vec3.dot v t = 0 then some 0 else some 1

/-- The axial slip velocity the spec requires (4.3 step 1 and the design
note in section 9): the signed projection (plain dot product) of the
element-averaged velocity on the tangent direction, with no square root. -/
def axial_slip_velocity_spec (v t : Vec3) : ℚ := Vec3.dot v t

/-- The direction-blended kinetic coefficient
`kinetic_mu = 0.5 * (kinetic_mu_forward * (1 - sign) + kinetic_mu_backward * (1 + sign))`. -/
def kinetic_mu_code (fp : AnistropicFrictionalPlane) (s : ℚ) : ℚ :=
  (1 / 2) * (fp.kinetic_mu_forward * (1 - s) + fp.kinetic_mu_backward * (1 + s))

/-- The binding `slip_function = (axial_slip_velocity, self.slip_velocity_tol)`:
a 2-tuple, not a call of `linear_interpolation_slip`. -/
noncomputable def slip_function_binding (fp : AnistropicFrictionalPlane) (e : RodElement) :
    Option ℝ × ℚ :=
  (axial_slip_velocity_code (element_v e) e.tangent, fp.slip_velocity_tol)

/-- Python evaluation of `1.0 - t` for a tuple `t`: `float.__sub__` does not
accept a tuple operand, so the expression raises `TypeError` regardless of
the tuple's contents. -/
def float_sub_tuple (a : ℚ) (t : Option ℝ × ℚ) : Except PyError ℚ :=
  Except.error PyError.typeError

/-- The expression bound to `axial_kinetic_friction_force`:
`-((1.0 - slip_function) * kinetic_mu * normal_force_plane * axial_slip_velocity_sign * axial_direction)`.
Evaluating `1.0 - slip_function` raises `TypeError` (see `float_sub_tuple`),
so the remaining factors are never formed; the continuation records them
faithfully (scalar factors times the elementwise product of the
normal-force column with the tangent, `none` propagating NaN). -/
noncomputable def axial_kinetic_friction_force_code (fp : AnistropicFrictionalPlane)
    (e : RodElement) (normal_force : Vec3) : Except PyError (Option Vec3) :=
  (float_sub_tuple 1 (slip_function_binding fp e)).bind (fun one_minus_sf =>
    Except.ok ((axial_slip_velocity_sign_code (element_v e) e.tangent).map (fun s =>
      Vec3.smul (-(one_minus_sf * kinetic_mu_code fp s * s))
        (Vec3.hadamard normal_force e.tangent))))

/-- Addition of half of a per-element force to each of the element's two
bounding nodes of the external-force accumulator. -/
def accumulate_element_force (e : RodElement) (f : Vec3) : RodElement :=
  { e with
    external_force0 := Vec3.add e.external_force0 (Vec3.smul (1 / 2) f),
    external_force1 := Vec3.add e.external_force1 (Vec3.smul (1 / 2) f) }

/-- The effect of `AnistropicFrictionalPlane.apply_kinetic_friction` on one
element: the first statement `self.apply_normal_force(self, rod)` passes two
positional arguments to a one-argument bound method, so the call raises
`TypeError` before any force is computed; the dead continuation models the
rest of the body (the friction force, itself another `TypeError`, and the
halved accumulation onto the two bounding nodes, with `none` for a
NaN-poisoned state). -/
noncomputable def apply_kinetic_friction (fp : AnistropicFrictionalPlane) (e : RodElement) :
    Except PyError (Option RodElement) :=
  (call_bound_method apply_normal_force_arity 2
      (apply_normal_force fp.toInteractionPlane e)).bind (fun res =>
    (axial_kinetic_friction_force_code fp res.2 res.1).bind (fun f =>
      Except.ok (f.map (accumulate_element_force res.2))))

/-- The axial kinetic friction force the spec states (4.3 step 4):
`-(1 - regularization_factor) * mu * |normal_force| * sign(slip_velocity)`
times the tangent direction. -/
def axial_kinetic_friction_force_spec (regularization_factor mu normal_force_magnitude
    slip_sign : ℚ) (tangent : Vec3) : Vec3 :=
  Vec3.smul (-((1 - regularization_factor) * mu * normal_force_magnitude * slip_sign)) tangent

/-! ### Helper lemmas -/

lemma Vec3.zero_add_vec (v : Vec3) : Vec3.add Vec3.zero v = v := by
  cases v
  simp [Vec3.add, Vec3.zero]

lemma Vec3.one_smul_vec (v : Vec3) : Vec3.smul 1 v = v := by
  cases v
  simp [Vec3.smul]

lemma Vec3.smul_zero_scalar (n : Vec3) : Vec3.smul 0 n = Vec3.zero := by
  simp [Vec3.smul, Vec3.zero]

lemma Vec3.neg_smul_eq (a : ℚ) (n : Vec3) : Vec3.neg (Vec3.smul a n) = Vec3.smul (-a) n := by
  simp only [Vec3.neg, Vec3.smul, Vec3.mk.injEq]
  exact ⟨by ring, by ring, by ring⟩

lemma Vec3.smul_add_smul (a b : ℚ) (n : Vec3) :
    Vec3.add (Vec3.smul a n) (Vec3.smul b n) = Vec3.smul (a + b) n := by
  simp only [Vec3.add, Vec3.smul, Vec3.mk.injEq]
  exact ⟨by ring, by ring, by ring⟩

lemma Vec3.dot_self_nonneg (a : Vec3) : 0 ≤ Vec3.dot a a := by
  have hx := mul_self_nonneg a.x
  have hy := mul_self_nonneg a.y
  have hz := mul_self_nonneg a.z
  simp only [Vec3.dot]
  linarith

lemma slip_factor_bounds (v_tol v : ℚ) (h : 0 < v_tol) :
    0 ≤ slip_factor v_tol v ∧ slip_factor v_tol v ≤ 1 := by
  unfold slip_factor
  split_ifs with hv
  · have h1 : 1 < |v| / v_tol := (one_lt_div h).mpr hv
    have hm0 : 0 < min 1 (|v| / v_tol - 1) := lt_min (by norm_num) (by linarith)
    have hm1 : min 1 (|v| / v_tol - 1) ≤ 1 := min_le_left _ _
    refine ⟨abs_nonneg _, ?_⟩
    rw [abs_of_nonneg (by linarith)]
    linarith
  · norm_num

/-! ### Claims about the slip-velocity regularizer -/

/-- C1 (amended): the source applies the two branches of the slip
regularizer the other way round from the claim: an element with
`|slip_velocity| <= v_tol` keeps the initial factor `1`, and an element
with `|slip_velocity| > v_tol` receives the factor
`|1 - min(1, |slip_velocity| / v_tol - 1)|`. -/
theorem c1_slip_regularizer_branches (vs : List ℚ) (v_tol : ℚ) (htol : 0 < v_tol) :
    linear_interpolation_slip vs v_tol =
      vs.map (fun v => if |v| ≤ v_tol then 1 else |1 - min 1 (|v| / v_tol - 1)|) := by
  unfold linear_interpolation_slip
  refine List.map_congr_left ?_
  intro v _
  by_cases hv : v_tol < |v|
  · rw [slip_factor, if_pos hv, if_neg (not_le.mpr hv)]
  · rw [slip_factor, if_neg hv, if_pos (not_lt.mp hv)]

theorem c1_slip_regularizer_branches_witness :
    (0 : ℚ) < 2 ∧ linear_interpolation_slip [0, 1, 3] 2 =
      List.map (fun v => if |v| ≤ (2 : ℚ) then 1 else |1 - min 1 (|v| / 2 - 1)|) [0, 1, 3] :=
  ⟨by norm_num, c1_slip_regularizer_branches [0, 1, 3] 2 (by norm_num)⟩

/-- C1 is false as stated: at slip velocity `0` with threshold `1` (so
`|0| <= v_tol`) the source returns the factor `1`, while the formula the
claim assigns to that branch evaluates to `|1 - min(1, 0/1 - 1)| = 2`. -/
theorem c1_slip_regularizer_counterexample :
    |(0 : ℚ)| ≤ 1 ∧ linear_interpolation_slip [0] 1 = [1] ∧
      |1 - min 1 (|(0 : ℚ)| / 1 - 1)| = 2 ∧ (1 : ℚ) ≠ 2 := by
  refine ⟨by norm_num, ?_, ?_, by norm_num⟩
  · norm_num [linear_interpolation_slip, slip_factor]
  · norm_num

/-- C7 (amended): with a strictly positive threshold every factor the
regularizer returns lies in the closed interval `[0, 1]`, and the factor at
slip velocity `v_tol` equals the literal formula value
`|1 - min(1, |v_tol| / v_tol - 1)| = 1`; the factor at slip velocity `0`,
however, is `1`, not the value `2` of the literal formula (see the
counterexample). -/
theorem c7_slip_factor_range (vs : List ℚ) (v_tol : ℚ) (htol : 0 < v_tol) :
    (∀ f ∈ linear_interpolation_slip vs v_tol, 0 ≤ f ∧ f ≤ 1) ∧
      slip_factor v_tol v_tol = |1 - min 1 (|v_tol| / v_tol - 1)| ∧
      slip_factor v_tol 0 = 1 := by
  refine ⟨?_, ?_, ?_⟩
  · intro f hf
    rcases List.mem_map.mp hf with ⟨v, _, rfl⟩
    exact slip_factor_bounds v_tol v htol
  · have habs : |v_tol| = v_tol := abs_of_pos htol
    have hdiv : v_tol / v_tol = 1 := div_self (ne_of_gt htol)
    rw [slip_factor, if_neg (by rw [habs]; exact lt_irrefl v_tol), habs, hdiv]
    norm_num
  · rw [slip_factor, if_neg (by rw [abs_zero]; exact not_lt.mpr htol.le)]

theorem c7_slip_factor_range_witness :
    (0 : ℚ) < 1 ∧ (∀ f ∈ linear_interpolation_slip [0, 3] 1, 0 ≤ f ∧ f ≤ 1) :=
  ⟨by norm_num, (c7_slip_factor_range [0, 3] 1 (by norm_num)).1⟩

/-- C7 is false in its "factor(0) matches the literal formula" part: at slip
velocity `0` with threshold `2` the source's factor is `1`, while the
literal formula of section 4.1 gives `|1 - min(1, 0/2 - 1)| = 2`. -/
theorem c7_slip_factor_zero_counterexample :
    linear_interpolation_slip [0] 2 = [1] ∧
      |1 - min 1 (|(0 : ℚ)| / 2 - 1)| = 2 ∧ (1 : ℚ) ≠ 2 := by
  refine ⟨?_, ?_, by norm_num⟩
  · norm_num [linear_interpolation_slip, slip_factor]
  · norm_num

/-! ### Claims about `apply_kinetic_friction` -/

/-- C2: the source computes the axial slip velocity as `np.sqrt` of the dot
product of element-averaged velocity and tangent, not as the signed dot
product the claim states: the resulting sign is never `-1`, and on an
element-averaged velocity antiparallel to the tangent the radicand is
negative, so the source's value is NaN (`none`) while the signed projection
the claim describes is `-1` (and `+1` on the parallel input). -/
theorem c2_axial_slip_velocity_sqrt_defect :
    (∀ v t : Vec3, ∀ s : ℚ, axial_slip_velocity_sign_code v t = some s → 0 ≤ s) ∧
      axial_slip_velocity_code ⟨-1, 0, 0⟩ ⟨1, 0, 0⟩ = none ∧
      axial_slip_velocity_spec ⟨-1, 0, 0⟩ ⟨1, 0, 0⟩ = -1 ∧
      axial_slip_velocity_spec ⟨1, 0, 0⟩ ⟨1, 0, 0⟩ = 1 := by
  refine ⟨?_, ?_, ?_, ?_⟩
  · intro v t s hs
    unfold axial_slip_velocity_sign_code at hs
    split_ifs at hs with h1 h2
    · injection hs with h
      subst h
      norm_num
    · injection hs with h
      subst h
      norm_num
  · rw [axial_slip_velocity_code, if_pos (by norm_num [Vec3.dot])]
  · norm_num [axial_slip_velocity_spec, Vec3.dot]
  · norm_num [axial_slip_velocity_spec, Vec3.dot]

theorem c2_axial_slip_velocity_sqrt_defect_witness :
    axial_slip_velocity_sign_code ⟨2, 0, 0⟩ ⟨1, 0, 0⟩ = some 1 ∧ (0 : ℚ) ≤ 1 :=
  ⟨by norm_num [axial_slip_velocity_sign_code, Vec3.dot],
   c2_axial_slip_velocity_sqrt_defect.1 ⟨2, 0, 0⟩ ⟨1, 0, 0⟩ 1
     (by norm_num [axial_slip_velocity_sign_code, Vec3.dot])⟩

/-- C3: `apply_kinetic_friction` never completes: its first statement calls
the one-positional-argument bound method `apply_normal_force` with the two
positional arguments `(self, rod)`, so every call raises `TypeError` before
any force is computed or accumulated, contrary to the claim that it
completes without raising for every well-formed input. -/
theorem c3_apply_kinetic_friction_raises (fp : AnistropicFrictionalPlane) (e : RodElement) :
    apply_kinetic_friction fp e = Except.error PyError.typeError := rfl

/-- C5: the axial friction-force expression raises `TypeError` for every
input, because `slip_function` is bound to the tuple
`(axial_slip_velocity, slip_velocity_tol)` — `linear_interpolation_slip` is
never called — so `1.0 - slip_function` fails and the claimed Coulomb
product is never formed.  Composing the claim's formula with the
regularizer value `slip_factor 1 2 = 0` at slip-velocity magnitude
`2 * slip_velocity_tol`, coefficient `1/2` and normal-force magnitude `3`
would give the force `(3/2, 0, 0)`, of magnitude `0.5 * |normal_force|`
along the tangent. -/
theorem c5_axial_friction_force_typeerror :
    (∀ (fp : AnistropicFrictionalPlane) (e : RodElement) (nf : Vec3),
        axial_kinetic_friction_force_code fp e nf = Except.error PyError.typeError) ∧
      axial_kinetic_friction_force_spec (slip_factor 1 2) (1 / 2) 3 (-1) ⟨1, 0, 0⟩ =
        ⟨3 / 2, 0, 0⟩ := by
  refine ⟨fun fp e nf => rfl, ?_⟩
  norm_num [axial_kinetic_friction_force_spec, slip_factor, Vec3.smul]

/-! ### Claims about `apply_normal_force` -/

/-- C4 (amended): for a non-contact element (`distance_from_plane >
surface_tol`) the per-element vector `apply_normal_force` returns is
exactly the zero vector, but the force it adds to the element's two
bounding nodes is half of `elastic_force + damping_force` each: the
damping term is not gated by the contact mask, and the elastic term is
nonzero whenever the element radius exceeds the distance, so the
accumulated force need not vanish (see the counterexample). -/
theorem c4_noncontact_returned_zero (p : InteractionPlane) (e : RodElement)
    (h : p.surface_tol < distance_from_plane p e) :
    normal_force_plane p e = Vec3.zero ∧
      total_force_plane p e = Vec3.add (elastic_force p e) (damping_force p e) := by
  have hz : normal_force_plane p e = Vec3.zero := by
    rw [normal_force_plane, if_pos h]
  refine ⟨hz, ?_⟩
  rw [total_force_plane, hz]
  rw [Vec3.zero_add_vec]

theorem c4_noncontact_returned_zero_witness :
    (InteractionPlane.init 1 1 ⟨0, 0, 0⟩ ⟨0, 0, 1⟩).surface_tol <
        distance_from_plane (InteractionPlane.init 1 1 ⟨0, 0, 0⟩ ⟨0, 0, 1⟩)
          ⟨⟨0, 0, 1⟩, ⟨0, 0, 1⟩, ⟨0, 0, 1⟩, ⟨0, 0, 1⟩, ⟨0, 0, 0⟩, ⟨0, 0, 0⟩,
            ⟨0, 0, 0⟩, ⟨0, 0, 0⟩, 0, ⟨1, 0, 0⟩⟩ ∧
      normal_force_plane (InteractionPlane.init 1 1 ⟨0, 0, 0⟩ ⟨0, 0, 1⟩)
          ⟨⟨0, 0, 1⟩, ⟨0, 0, 1⟩, ⟨0, 0, 1⟩, ⟨0, 0, 1⟩, ⟨0, 0, 0⟩, ⟨0, 0, 0⟩,
            ⟨0, 0, 0⟩, ⟨0, 0, 0⟩, 0, ⟨1, 0, 0⟩⟩ = Vec3.zero :=
  ⟨by norm_num [InteractionPlane.init, distance_from_plane, element_x, Vec3.dot, Vec3.sub,
      Vec3.add, Vec3.smul],
   (c4_noncontact_returned_zero _ _
     (by norm_num [InteractionPlane.init, distance_from_plane, element_x, Vec3.dot, Vec3.sub,
        Vec3.add, Vec3.smul])).1⟩

/-- C4 is false for the force added to the accumulator: this element sits at
distance `1` above the plane (far outside `surface_tol = 1e-4`), yet with
unit normal velocity and `nu = 1` the ungated damping term makes
`apply_normal_force` add the nonzero force `(0, 0, -1/2)` to each bounding
node, while the returned per-element vector is zero. -/
theorem c4_noncontact_accumulator_counterexample :
    (InteractionPlane.init 1 1 ⟨0, 0, 0⟩ ⟨0, 0, 1⟩).surface_tol <
        distance_from_plane (InteractionPlane.init 1 1 ⟨0, 0, 0⟩ ⟨0, 0, 1⟩)
          ⟨⟨0, 0, 1⟩, ⟨0, 0, 1⟩, ⟨0, 0, 1⟩, ⟨0, 0, 1⟩, ⟨0, 0, 0⟩, ⟨0, 0, 0⟩,
            ⟨0, 0, 0⟩, ⟨0, 0, 0⟩, 0, ⟨1, 0, 0⟩⟩ ∧
      external_force_delta_node0 (InteractionPlane.init 1 1 ⟨0, 0, 0⟩ ⟨0, 0, 1⟩)
          ⟨⟨0, 0, 1⟩, ⟨0, 0, 1⟩, ⟨0, 0, 1⟩, ⟨0, 0, 1⟩, ⟨0, 0, 0⟩, ⟨0, 0, 0⟩,
            ⟨0, 0, 0⟩, ⟨0, 0, 0⟩, 0, ⟨1, 0, 0⟩⟩ = ⟨0, 0, -(1 / 2)⟩ ∧
      (⟨0, 0, -(1 / 2)⟩ : Vec3) ≠ Vec3.zero := by
  refine ⟨?_, ?_, ?_⟩
  · norm_num [InteractionPlane.init, distance_from_plane, element_x, Vec3.dot, Vec3.sub,
      Vec3.add, Vec3.smul]
  · norm_num [InteractionPlane.init, external_force_delta_node0, total_force_plane,
      normal_force_plane, forces_normal, forces_normal_direction, total_forces,
      nodal_total_force0, nodal_total_force1, elastic_force, plane_penetration,
      distance_from_plane, element_x, damping_force, normal_v, element_v,
      Vec3.dot, Vec3.add, Vec3.sub, Vec3.smul, Vec3.neg, Vec3.zero, Vec3.mk.injEq]
  · norm_num [Vec3.zero, Vec3.mk.injEq]

/-- C6: where the element-averaged pre-existing net force has a strictly
positive component along the plane normal, the projected column
`forces_normal` is zeroed, so it contributes nothing to the contact
reaction; and for every input the returned per-element normal force has a
non-negative component along the plane normal. -/
theorem c6_one_sided_normal_force (p : InteractionPlane) (e : RodElement) :
    (0 < forces_normal_direction p e → forces_normal p e = Vec3.zero) ∧
      0 ≤ Vec3.dot p.normal_plane (normal_force_plane p e) := by
  constructor
  · intro h
    rw [forces_normal, if_pos h]
  · rw [normal_force_plane]
    split_ifs with hc
    · simp [Vec3.dot, Vec3.zero]
    · rw [forces_normal]
      split_ifs with hf
      · simp [Vec3.neg, Vec3.zero, Vec3.dot]
      · have hnn := Vec3.dot_self_nonneg p.normal_plane
        have hf' : forces_normal_direction p e ≤ 0 := not_lt.mp hf
        simp only [Vec3.neg, Vec3.smul, Vec3.dot] at hnn ⊢
        nlinarith [mul_nonneg (neg_nonneg.mpr hf') hnn]

theorem c6_one_sided_normal_force_witness :
    (0 < forces_normal_direction (InteractionPlane.init 1 1 ⟨0, 0, 0⟩ ⟨0, 0, 1⟩)
          ⟨⟨0, 0, 0⟩, ⟨0, 0, 0⟩, ⟨0, 0, 0⟩, ⟨0, 0, 0⟩, ⟨0, 0, 1⟩, ⟨0, 0, 1⟩,
            ⟨0, 0, 0⟩, ⟨0, 0, 0⟩, 0, ⟨1, 0, 0⟩⟩ →
        forces_normal (InteractionPlane.init 1 1 ⟨0, 0, 0⟩ ⟨0, 0, 1⟩)
          ⟨⟨0, 0, 0⟩, ⟨0, 0, 0⟩, ⟨0, 0, 0⟩, ⟨0, 0, 0⟩, ⟨0, 0, 1⟩, ⟨0, 0, 1⟩,
            ⟨0, 0, 0⟩, ⟨0, 0, 0⟩, 0, ⟨1, 0, 0⟩⟩ = Vec3.zero) ∧
      0 ≤ Vec3.dot (InteractionPlane.init 1 1 ⟨0, 0, 0⟩ ⟨0, 0, 1⟩).normal_plane
          (normal_force_plane (InteractionPlane.init 1 1 ⟨0, 0, 0⟩ ⟨0, 0, 1⟩)
            ⟨⟨0, 0, 0⟩, ⟨0, 0, 0⟩, ⟨0, 0, 0⟩, ⟨0, 0, 0⟩, ⟨0, 0, 1⟩, ⟨0, 0, 1⟩,
              ⟨0, 0, 0⟩, ⟨0, 0, 0⟩, 0, ⟨1, 0, 0⟩⟩) :=
  c6_one_sided_normal_force (InteractionPlane.init 1 1 ⟨0, 0, 0⟩ ⟨0, 0, 1⟩)
    ⟨⟨0, 0, 0⟩, ⟨0, 0, 0⟩, ⟨0, 0, 0⟩, ⟨0, 0, 0⟩, ⟨0, 0, 1⟩, ⟨0, 0, 1⟩,
      ⟨0, 0, 0⟩, ⟨0, 0, 0⟩, 0, ⟨1, 0, 0⟩⟩

/-- C8 (amended): the two nodal contributions of an element are each half of
`total_force_plane` and they sum exactly to it (no force created or lost in
the split); the function's return value, however, is the un-split
`normal_force_plane` alone, which differs from the accumulated per-element
force whenever the elastic or damping terms are nonzero (see the
counterexample). -/
theorem c8_node_force_split (p : InteractionPlane) (e : RodElement) :
    Vec3.add (external_force_delta_node0 p e) (external_force_delta_node1 p e) =
        total_force_plane p e ∧
      (apply_normal_force p e).1 = normal_force_plane p e := by
  constructor
  · have h : (1 : ℚ) / 2 + 1 / 2 = 1 := by norm_num
    rw [external_force_delta_node0, external_force_delta_node1, Vec3.smul_add_smul, h,
      Vec3.one_smul_vec]
  · rfl

/-- C8 is false in its claim that the split per-element force is also the
return value: for this in-contact element with unit normal velocity and
`nu = 1` the two nodal contributions sum to the damping force `(0, 0, -1)`,
while the function returns the zero vector. -/
theorem c8_return_counterexample :
    Vec3.add
        (external_force_delta_node0 (InteractionPlane.init 1 1 ⟨0, 0, 0⟩ ⟨0, 0, 1⟩)
          ⟨⟨0, 0, 0⟩, ⟨0, 0, 0⟩, ⟨0, 0, 1⟩, ⟨0, 0, 1⟩, ⟨0, 0, 0⟩, ⟨0, 0, 0⟩,
            ⟨0, 0, 0⟩, ⟨0, 0, 0⟩, 0, ⟨1, 0, 0⟩⟩)
        (external_force_delta_node1 (InteractionPlane.init 1 1 ⟨0, 0, 0⟩ ⟨0, 0, 1⟩)
          ⟨⟨0, 0, 0⟩, ⟨0, 0, 0⟩, ⟨0, 0, 1⟩, ⟨0, 0, 1⟩, ⟨0, 0, 0⟩, ⟨0, 0, 0⟩,
            ⟨0, 0, 0⟩, ⟨0, 0, 0⟩, 0, ⟨1, 0, 0⟩⟩) = ⟨0, 0, -1⟩ ∧
      (apply_normal_force (InteractionPlane.init 1 1 ⟨0, 0, 0⟩ ⟨0, 0, 1⟩)
          ⟨⟨0, 0, 0⟩, ⟨0, 0, 0⟩, ⟨0, 0, 1⟩, ⟨0, 0, 1⟩, ⟨0, 0, 0⟩, ⟨0, 0, 0⟩,
            ⟨0, 0, 0⟩, ⟨0, 0, 0⟩, 0, ⟨1, 0, 0⟩⟩).1 = Vec3.zero ∧
      (⟨0, 0, -1⟩ : Vec3) ≠ Vec3.zero := by
  refine ⟨?_, ?_, ?_⟩
  · norm_num [InteractionPlane.init, external_force_delta_node0, external_force_delta_node1,
      total_force_plane, normal_force_plane, forces_normal, forces_normal_direction,
      total_forces, nodal_total_force0, nodal_total_force1, elastic_force, plane_penetration,
      distance_from_plane, element_x, damping_force, normal_v, element_v,
      Vec3.dot, Vec3.add, Vec3.sub, Vec3.smul, Vec3.neg, Vec3.zero, Vec3.mk.injEq]
  · norm_num [InteractionPlane.init, apply_normal_force, normal_force_plane, forces_normal,
      forces_normal_direction, total_forces, nodal_total_force0, nodal_total_force1,
      distance_from_plane, element_x,
      Vec3.dot, Vec3.add, Vec3.sub, Vec3.smul, Vec3.neg, Vec3.zero, Vec3.mk.injEq]
  · norm_num [Vec3.zero, Vec3.mk.injEq]

/-- C9: whatever arguments the two constructors receive, the surface
tolerance of the resulting plane object is the hard-coded
`1e-4 = 1/10000`; `surface_tol` is not a parameter of either constructor. -/
theorem c9_surface_tol_hardcoded :
    (∀ (k nu : ℚ) (o n : Vec3), (InteractionPlane.init k nu o n).surface_tol = 1 / 10000) ∧
      (∀ (k nu : ℚ) (o n : Vec3) (s : ℚ) (sm km : ℚ × ℚ × ℚ),
        (AnistropicFrictionalPlane.init k nu o n s sm km).toInteractionPlane.surface_tol =
          1 / 10000) :=
  ⟨fun _ _ _ _ => rfl, fun _ _ _ _ _ _ _ => rfl⟩

/-- C10: every per-element force vector `apply_normal_force` computes and
accumulates — the one-sided projected term, the elastic penalty term, the
damping term, the returned normal force and the accumulated total — is a
scalar multiple of the plane normal, so normal-contact resolution never
adds a force component tangent to the plane. -/
theorem c10_forces_parallel_to_normal (p : InteractionPlane) (e : RodElement) :
    ∃ a b c d m : ℚ,
      forces_normal p e = Vec3.smul a p.normal_plane ∧
      elastic_force p e = Vec3.smul b p.normal_plane ∧
      damping_force p e = Vec3.smul c p.normal_plane ∧
      normal_force_plane p e = Vec3.smul d p.normal_plane ∧
      total_force_plane p e = Vec3.smul m p.normal_plane := by
  obtain ⟨a, ha⟩ : ∃ a, forces_normal p e = Vec3.smul a p.normal_plane := by
    rw [forces_normal]
    split_ifs
    · exact ⟨0, (Vec3.smul_zero_scalar p.normal_plane).symm⟩
    · exact ⟨_, rfl⟩
  obtain ⟨d, hd⟩ : ∃ d, normal_force_plane p e = Vec3.smul d p.normal_plane := by
    rw [normal_force_plane]
    split_ifs
    · exact ⟨0, (Vec3.smul_zero_scalar p.normal_plane).symm⟩
    · exact ⟨-a, by rw [ha, Vec3.neg_smul_eq]⟩
  refine ⟨a, -(p.k * plane_penetration p e), -(p.nu * normal_v p e), d,
    d + -(p.k * plane_penetration p e) + -(p.nu * normal_v p e), ha, rfl, rfl, hd, ?_⟩
  rw [total_force_plane, hd, elastic_force, damping_force, Vec3.smul_add_smul,
    Vec3.smul_add_smul]
